import Mathlib

/-!
Verification development for the L.I.F.T recycling-detector webcam component.

The definitions below are a shallow embedding of the TypeScript source
(`src/components/WebcamComponent.tsx` and its revisions): the static
classification tables, the pure status-reducer logic inside `detectObjects`,
the renderer geometry of `drawDetections`, the detection-loop scheduling
as an explicit event-step machine, the `stopWebcam` teardown, and the
micro:bit peripheral-bridge display operations.
-/

namespace LIFT

/-- Recyclable trash items (source list `RECYCLABLE_TRASH_ITEMS`). -/
def RECYCLABLE_TRASH_ITEMS : List String :=
  ["bottle", "cup", "wine glass", "plastic bag", "paper", "cardboard", "newspaper",
   "book", "aluminum foil", "tin can", "metal can", "container", "plastic"]

/-- Wrapper-like items, also considered recyclable (source list `WRAPPER_LIKE_ITEMS`). -/
def WRAPPER_LIKE_ITEMS : List String :=
  ["book", "tie", "handbag", "backpack", "box", "suitcase"]

/-- Items that should not be classified as trash at all (source list `NOT_TRASH_ITEMS`). -/
def NOT_TRASH_ITEMS : List String :=
  ["person", "human", "man", "woman", "child", "boy", "girl",
   "dog", "cat", "bird", "horse", "sheep", "cow", "elephant",
   "bear", "zebra", "giraffe"]

/-- JavaScript `toLowerCase` on the ASCII class labels that occur here:
lower-case every character. -/
def toLowerStr (s : String) : String := String.mk (s.data.map Char.toLower)

/-- Source `isRecyclable`: membership of the lower-cased class string in
`RECYCLABLE_TRASH_ITEMS` or `WRAPPER_LIKE_ITEMS`. -/
def isRecyclable (objectClass : String) : Bool :=
  let lowerClass := toLowerStr objectClass
  RECYCLABLE_TRASH_ITEMS.contains lowerClass || WRAPPER_LIKE_ITEMS.contains lowerClass

/-- Source `isNotTrash`: membership of the lower-cased class string in
`NOT_TRASH_ITEMS`. -/
def isNotTrash (objectClass : String) : Bool :=
  let lowerClass := toLowerStr objectClass
  NOT_TRASH_ITEMS.contains lowerClass

/-- Source interface `DetectedObject` (`class` is a Lean keyword, so the
field is called `cls`). -/
structure DetectedObject where
  cls : String
  confidence : Int
  x : ℚ
  y : ℚ
  width : ℚ
  height : ℚ
deriving DecidableEq, Repr

/-- A raw COCO-SSD prediction: label, score in 0..1, bounding box. -/
structure Prediction where
  cls : String
  score : ℚ
  bx : ℚ
  by' : ℚ
  bw : ℚ
  bh : ℚ
deriving DecidableEq, Repr

/-- JavaScript `Math.round` on the non-negative rationals that occur here:
round half away from zero, i.e. floor of `q + 1/2`. -/
def jsRound (q : ℚ) : Int := ⌊q + 1/2⌋

/-- Source `processDetections`: map raw predictions to `DetectedObject`s,
converting the 0..1 score to an integer percentage. -/
def processDetections (predictions : List Prediction) : List DetectedObject :=
  predictions.map fun p =>
    { cls := p.cls, confidence := jsRound (p.score * 100),
      x := p.bx, y := p.by', width := p.bw, height := p.bh }

/-- Join the class names of a list of detections with ", ", as the source's
`items.map(item => item.class).join(', ')`. -/
def joinClasses (items : List DetectedObject) : String :=
  String.intercalate ", " (items.map (fun item => item.cls))

/-- Output of one successful Publishing step: the status text, the
`recycleDetected` flag and the published `detectedObjects` list. -/
structure ReducedStatus where
  statusText : String
  anyRecyclablePresent : Bool
  published : List DetectedObject
deriving DecidableEq, Repr

/-- The pure status-reducer logic of the success branch of `detectObjects`
(main revision, lines 444-483): partition the detections into not-trash and
trash, find the recyclable trash, publish only the trash items, and compose
the status message by the source's first-match-wins branch order. -/
def reduceDetections (allDetectedItems : List DetectedObject) : ReducedStatus :=
  let notTrashItems := allDetectedItems.filter (fun obj => isNotTrash obj.cls)
  let hasNotTrashItems := notTrashItems.length > 0
  let trashItems := allDetectedItems.filter (fun obj => !(isNotTrash obj.cls))
  let recyclableItems := trashItems.filter (fun obj => isRecyclable obj.cls)
  let statusText :=
    if hasNotTrashItems then
      let notTrashNames := joinClasses notTrashItems
      if recyclableItems.length > 0 then
        "Detected: " ++ notTrashNames ++ " (not trash) and recyclable items: "
          ++ joinClasses recyclableItems
      else if trashItems.length > 0 then
        "Detected: " ++ notTrashNames ++ " (not trash) and non-recyclable items"
      else
        "Detected: " ++ notTrashNames ++ " (not trash)"
    else if recyclableItems.length > 0 then
      "Recyclable items detected: " ++ joinClasses recyclableItems ++ "!"
    else if trashItems.length == 0 then
      "No objects detected"
    else
      "No recyclable items found among " ++ toString trashItems.length
        ++ " detected object(s)"
  { statusText := statusText,
    anyRecyclablePresent := recyclableItems.length > 0,
    published := trashItems }

/-- Render geometry derived by `drawDetections` (part_003 revision,
lines 313-322). -/
structure RenderGeometry where
  scale : ℚ
  offsetX : ℚ
  offsetY : ℚ
deriving DecidableEq, Repr

/-- Source geometry computation of `drawDetections`: cover-scaling uses the
larger of the two axis ratios, and the offsets center the scaled frame. -/
def computeRenderGeometry (videoWidth videoHeight displayWidth displayHeight : ℚ) :
    RenderGeometry :=
  let scaleX := displayWidth / videoWidth
  let scaleY := displayHeight / videoHeight
  let scale := max scaleX scaleY
  let offsetX := (displayWidth - videoWidth * scale) / 2
  let offsetY := (displayHeight - videoHeight * scale) / 2
  { scale := scale, offsetX := offsetX, offsetY := offsetY }

/-- Parameters of one `model.detect(video, maxResults, minScore)` call. -/
structure CallParams where
  maxResults : Option Nat
  minScore : ℚ
deriving DecidableEq, Repr

/-- State of the detection loop (main revision).  `armedTicks` counts the
animation-frame callbacks currently scheduled (`requestRef` plus any stale
callbacks that were overwritten but will still fire); `mainInFlight` is true
while the awaited `model.detect` call of `detectObjects` is pending;
`drawInFlight` counts the extra not-trash `model.detect` calls launched by
`drawDetections` that have not resolved yet. -/
structure LoopState where
  isStreaming : Bool
  modelLoaded : Bool
  hasVideo : Bool
  hasModel : Bool
  videoReady : Bool
  detectionRunning : Bool
  errorCount : Nat
  armedTicks : Nat
  mainInFlight : Bool
  drawInFlight : Nat
  detectionStatus : String
  detectedObjects : List DetectedObject
  recycleDetected : Bool
deriving DecidableEq, Repr

/-- Result of one event of the loop machine: the next state, the inference
calls issued during the event, and—when a new tick was scheduled—the
artificial delay in milliseconds put in front of it (`some 0` for a direct
`requestAnimationFrame` re-arm, `some d` for a `setTimeout(d)` re-arm,
`none` when nothing was scheduled). -/
structure StepOutput where
  state : LoopState
  calls : List CallParams
  rearmDelayMs : Option Nat
deriving DecidableEq, Repr

/-- The synchronous prefix of `detectObjects` (main revision, lines 410-436),
run when a scheduled tick fires: the concurrency/prerequisite guard, the
video-readiness check, and—if both pass—issuing the awaited
`model.detect(video, undefined, 0.5)` call. -/
def detectTick (s : LoopState) : StepOutput :=
  if s.detectionRunning || !s.isStreaming || !s.hasVideo || !s.hasModel then
    if s.isStreaming && s.modelLoaded then
      ⟨{ s with armedTicks := s.armedTicks + 1 }, [], some 0⟩
    else
      ⟨s, [], none⟩
  else if !s.videoReady then
    ⟨{ s with armedTicks := s.armedTicks + 1 }, [], some 0⟩
  else
    ⟨{ s with detectionRunning := true, mainInFlight := true },
      [⟨none, 1/2⟩], none⟩

/-- Resumption of `detectObjects` after the awaited detect call resolves
successfully (main revision, lines 438-492): reset the error count, publish
the reduced snapshot, call `drawDetections`—which itself launches one more
unguarded `model.detect(video, undefined, 0.5)` call for the not-trash
overlay—and re-arm the callback. -/
def detectResolveOk (s : LoopState) (predictions : List Prediction) : StepOutput :=
  let r := reduceDetections (processDetections predictions)
  let drawCall : List CallParams :=
    if s.hasVideo && s.hasModel then [⟨none, 1/2⟩] else []
  let s1 : LoopState :=
    { s with
      errorCount := 0,
      detectedObjects := r.published,
      recycleDetected := r.anyRecyclablePresent,
      detectionStatus := r.statusText,
      drawInFlight := s.drawInFlight + drawCall.length,
      mainInFlight := false,
      detectionRunning := false }
  if s.isStreaming then
    ⟨{ s1 with armedTicks := s1.armedTicks + 1 }, drawCall, some 0⟩
  else
    ⟨s1, drawCall, none⟩

/-- The catch handler of `detectObjects` (main revision, lines 493-509):
increment the error count, report `retrying` only while the prior count is
below 3, and—while the prior count is below 5—schedule the next tick behind
a `setTimeout` of `errorCount * 500` milliseconds; at a prior count of 5 or
more nothing is scheduled. -/
def detectResolveErr (s : LoopState) : StepOutput :=
  let c := s.errorCount
  let s1 : LoopState :=
    { s with
      errorCount := c + 1,
      detectionStatus :=
        if c < 3 then "Detection error, retrying..." else "Detection error occurred",
      mainInFlight := false,
      detectionRunning := false }
  if c < 5 && s.isStreaming then
    ⟨{ s1 with armedTicks := s1.armedTicks + 1 }, [], some (c * 500)⟩
  else
    ⟨s1, [], none⟩

/-- Resolution of one of `drawDetections`' extra not-trash detect calls
(success or failure: the failure is swallowed by its `.catch` logger). -/
def drawResolve (s : LoopState) : StepOutput :=
  ⟨{ s with drawInFlight := s.drawInFlight - 1 }, [], none⟩

/-- Events of the loop machine. -/
inductive LoopEvent where
  | tick
  | resolveOk (predictions : List Prediction)
  | resolveErr
  | drawDone
deriving DecidableEq, Repr

/-- One enabled event: a tick can only fire while a callback is armed, a
resolution only while the corresponding call is in flight. -/
def stepEvent (s : LoopState) (e : LoopEvent) : Option StepOutput :=
  match e with
  | .tick =>
      if 0 < s.armedTicks then
        some (detectTick { s with armedTicks := s.armedTicks - 1 })
      else none
  | .resolveOk preds =>
      if s.mainInFlight then some (detectResolveOk s preds) else none
  | .resolveErr =>
      if s.mainInFlight then some (detectResolveErr s) else none
  | .drawDone =>
      if 0 < s.drawInFlight then some (drawResolve s) else none

/-- Run a list of events, skipping the ones that are not enabled, and collect
every inference call issued along the way. -/
def runEvents (s : LoopState) : List LoopEvent → LoopState × List CallParams
  | [] => (s, [])
  | e :: rest =>
    match stepEvent s e with
    | none => runEvents s rest
    | some out =>
      let next := runEvents out.state rest
      (next.1, out.calls ++ next.2)

/-- Number of inference calls currently in flight. -/
def inFlightCalls (s : LoopState) : Nat :=
  (if s.mainInFlight then 1 else 0) + s.drawInFlight

/-- A loop state that is streaming with the model loaded, the video ready,
no call in flight and one armed tick: the state right after the start
effect scheduled the first tick. -/
def readyLoopState : LoopState :=
  { isStreaming := true, modelLoaded := true, hasVideo := true, hasModel := true,
    videoReady := true, detectionRunning := false, errorCount := 0,
    armedTicks := 1, mainInFlight := false, drawInFlight := 0,
    detectionStatus := "Model loaded. Click Start to begin.",
    detectedObjects := [], recycleDetected := false }

/-- State of the throttled detection loop of the part_003 revision, which
adds `lastDetectionTimeRef` and `detectionIntervalRef` to the loop state. -/
structure ThrottledState where
  isStreaming : Bool
  modelLoaded : Bool
  hasVideo : Bool
  hasModel : Bool
  videoReady : Bool
  detectionRunning : Bool
  lastDetectionTime : Nat
  detectionIntervalMs : Nat
deriving DecidableEq, Repr

/-- The synchronous prefix of the part_003 `detectObjects` (lines 152-198):
the concurrency/prerequisite guard, then the throttle check—if the elapsed
time since `lastDetectionTimeRef` is below `detectionIntervalRef` the tick
only re-arms—then the readiness check, then the
`model.detect(video, 5, 0.5)` call. -/
def throttledDetectTick (s : ThrottledState) (now : Nat) :
    ThrottledState × List CallParams :=
  if s.detectionRunning || !s.isStreaming || !s.hasVideo || !s.hasModel then
    (s, [])
  else if now - s.lastDetectionTime < s.detectionIntervalMs then
    (s, [])
  else
    let s1 := { s with lastDetectionTime := now }
    if !s1.videoReady then
      (s1, [])
    else
      ({ s1 with detectionRunning := true }, [⟨some 5, 1/2⟩])

/-- Events of the throttled machine: a tick carries the time at which it
fires; resolutions clear the running flag. -/
inductive ThrottledEvent where
  | tick (now : Nat)
  | resolveOk
  | resolveErr
deriving DecidableEq, Repr

/-- One event of the throttled machine. -/
def throttledStep (s : ThrottledState) (e : ThrottledEvent) :
    ThrottledState × List CallParams :=
  match e with
  | .tick now => throttledDetectTick s now
  | .resolveOk => ({ s with detectionRunning := false }, [])
  | .resolveErr => ({ s with detectionRunning := false }, [])

/-- Run a list of throttled events and collect the times of the ticks that
issued an inference call. -/
def runThrottled (s : ThrottledState) : List ThrottledEvent → ThrottledState × List Nat
  | [] => (s, [])
  | e :: rest =>
    let out := throttledStep s e
    let next := runThrottled out.1 rest
    (next.1,
      (match e with
       | .tick now => if out.2.isEmpty then [] else [now]
       | _ => []) ++ next.2)

/-- The component state touched by `stopWebcam` (main revision, lines
715-733): `hasStream` models `videoRef.current.srcObject` being non-null. -/
structure ComponentState where
  hasStream : Bool
  isStreaming : Bool
  detectionStatus : String
  detectedObjects : List DetectedObject
  errorCount : Nat
  recycleDetected : Bool
deriving DecidableEq, Repr

/-- Source `stopWebcam`: when a stream is attached, stop its tracks, detach
it and reset the state; otherwise the guard fails and nothing happens. -/
def stopWebcam (s : ComponentState) : ComponentState :=
  if s.hasStream then
    { s with
      hasStream := false,
      isStreaming := false,
      detectionStatus := "Webcam stopped",
      detectedObjects := [],
      errorCount := 0,
      recycleDetected := false }
  else
    s

/-- A 5x5 boolean LED pattern. -/
def MicrobitPattern := List (List Bool)
deriving instance DecidableEq for MicrobitPattern

/-- Right arrow pattern shown for recyclable items. -/
def rightArrowPattern : MicrobitPattern :=
  [[false, false, true, false, false],
   [false, false, false, true, false],
   [true, true, true, true, true],
   [false, false, false, true, false],
   [false, false, true, false, false]]

/-- Left arrow pattern shown for non-recyclable items. -/
def leftArrowPattern : MicrobitPattern :=
  [[false, false, true, false, false],
   [false, true, false, false, false],
   [true, true, true, true, true],
   [false, true, false, false, false],
   [false, false, true, false, false]]

/-- Empty pattern shown when no objects are detected. -/
def emptyPattern : MicrobitPattern :=
  [[false, false, false, false, false],
   [false, false, false, false, false],
   [false, false, false, false, false],
   [false, false, false, false, false],
   [false, false, false, false, false]]

/-- The micro:bit bridge state: connection flags, the shared throttle
timestamp `lastMicrobitUpdateRef`, what is currently shown on the LED
display, and a count of locally logged errors. -/
structure BridgeState where
  microbitConnected : Bool
  hasLedService : Bool
  lastMicrobitUpdate : Nat
  displayedText : Option String
  displayedPattern : Option MicrobitPattern
  loggedErrors : Nat
deriving DecidableEq

/-- The source constant `microbitUpdateIntervalMs`. -/
def microbitUpdateIntervalMs : Nat := 100

/-- Source `displayOnMicrobit` (lines 301-324): skip when disconnected, skip
when less than `microbitUpdateIntervalMs` has elapsed since the last update,
otherwise update the timestamp and attempt the write; a failing write
(`writeOk = false`) is caught and only logged.  The returned boolean records
whether a write was attempted. -/
def displayOnMicrobit (s : BridgeState) (now : Nat) (text : String)
    (writeOk : Bool) : BridgeState × Bool :=
  if !s.microbitConnected || !s.hasLedService then
    (s, false)
  else if now - s.lastMicrobitUpdate < microbitUpdateIntervalMs then
    (s, false)
  else
    let s1 := { s with lastMicrobitUpdate := now }
    if writeOk then
      ({ s1 with displayedText := some text }, true)
    else
      ({ s1 with loggedErrors := s1.loggedErrors + 1 }, true)

/-- Source `displayRecyclablePatternOnMicrobit` (lines 327-380): skip when
disconnected, otherwise pick the pattern from the detection state and attempt
the write on every call—the function performs no throttle check; a failing
write is caught and only logged. -/
def displayRecyclablePatternOnMicrobit (s : BridgeState)
    (detectedObjects : List DetectedObject) (recycleDetected : Bool)
    (writeOk : Bool) : BridgeState × Bool :=
  if !s.microbitConnected || !s.hasLedService then
    (s, false)
  else
    let patternToShow :=
      if detectedObjects.length = 0 then emptyPattern
      else if recycleDetected then rightArrowPattern
      else leftArrowPattern
    if writeOk then
      ({ s with displayedPattern := some patternToShow }, true)
    else
      ({ s with loggedErrors := s.loggedErrors + 1 }, true)

/-- The not-trash partition of a detection list (source `notTrashItems`). -/
def notTrashOf (dets : List DetectedObject) : List DetectedObject :=
  dets.filter fun d => isNotTrash d.cls

/-- The trash partition of a detection list (source `trashItems`, the list
that is published as `detectedObjects`). -/
def trashOf (dets : List DetectedObject) : List DetectedObject :=
  dets.filter fun d => !(isNotTrash d.cls)

/-- The recyclable items among the trash partition (source
`recyclableItems`). -/
def recyclableOf (dets : List DetectedObject) : List DetectedObject :=
  (trashOf dets).filter fun d => isRecyclable d.cls

/-- The ready state with the main detect call in flight and one armed tick
(a second callback scheduled by the start effect). -/
def inFlightLoopState : LoopState :=
  { readyLoopState with detectionRunning := true, mainInFlight := true }

/-- The ready state after four consecutive inference failures. -/
def erroredLoopState4 : LoopState :=
  { readyLoopState with errorCount := 4 }

/-- The ready state after five consecutive inference failures, with no
armed tick left. -/
def erroredLoopState5 : LoopState :=
  { readyLoopState with errorCount := 5, armedTicks := 0 }

/-- A throttled loop state that is streaming and ready, last detection at
time 1000, target interval 150ms. -/
def throttledReadyState : ThrottledState :=
  { isStreaming := true, modelLoaded := true, hasVideo := true, hasModel := true,
    videoReady := true, detectionRunning := false,
    lastDetectionTime := 1000, detectionIntervalMs := 150 }

/-- Claim C5, counterexample: for a 640x480 frame on a 1280x720 display the
renderer's cover-scaling formula `max(1280/640, 720/480)` yields `2`, not the
claimed `720/480 = 1.5`, and the horizontal offset is `0`, not `160`. -/
theorem c5_counterexample :
    (computeRenderGeometry 640 480 1280 720).scale ≠ 3/2
    ∧ (computeRenderGeometry 640 480 1280 720).offsetX ≠ 160 := by
  constructor <;> · simp only [computeRenderGeometry]; norm_num

/-- Claim C5, amended: for a frame of native size 640x480 and a display
surface of 1280x720 the renderer computes
`scale = max(1280/640, 720/480) = 2`, `offsetX = (1280 - 640*2)/2 = 0` and
`offsetY = (720 - 480*2)/2 = -120`. -/
theorem c5_render_geometry :
    (computeRenderGeometry 640 480 1280 720).scale = 2
    ∧ (computeRenderGeometry 640 480 1280 720).offsetX = 0
    ∧ (computeRenderGeometry 640 480 1280 720).offsetY = -120 := by
  refine ⟨?_, ?_, ?_⟩ <;> · simp only [computeRenderGeometry]; norm_num

/-- Claim C6, counterexample: the label "book" appears in both underlying
recyclable source sets, `RECYCLABLE_TRASH_ITEMS` and `WRAPPER_LIKE_ITEMS`,
so it is not true that no label appears in more than one source set. -/
theorem c6_counterexample :
    "book" ∈ RECYCLABLE_TRASH_ITEMS ∧ "book" ∈ WRAPPER_LIKE_ITEMS := by
  decide

/-- Claim C6, amended: every label string belongs to exactly one of the three
categories recyclable / ignored / implicit-non-recyclable, because the
recyclable membership test (`RECYCLABLE_TRASH_ITEMS` plus
`WRAPPER_LIKE_ITEMS`) and the ignored membership test (`NOT_TRASH_ITEMS`)
are disjoint; the overlap in the source data is within the recyclable
category only ("book" sits in both of its underlying lists). -/
theorem c6_label_partition (l : String) :
    (if isRecyclable l = true then 1 else 0)
      + (if isNotTrash l = true then 1 else 0)
      + (if isRecyclable l = false ∧ isNotTrash l = false then 1 else 0) = 1 := by
  have hdisj : ¬(isRecyclable l = true ∧ isNotTrash l = true) := by
    rintro ⟨hr, hn⟩
    simp only [isRecyclable, isNotTrash, Bool.or_eq_true, List.elem_eq_mem,
      decide_eq_true_eq] at hr hn
    have hmem : ∀ x ∈ NOT_TRASH_ITEMS,
        ¬(x ∈ RECYCLABLE_TRASH_ITEMS) ∧ ¬(x ∈ WRAPPER_LIKE_ITEMS) := by decide
    rcases hr with h | h
    · exact (hmem _ hn).1 h
    · exact (hmem _ hn).2 h
  cases hr : isRecyclable l <;> cases hn : isNotTrash l <;>
    simp [hr, hn] at hdisj ⊢

/-- Claim C6, amended, witness: the label "bottle" is recyclable and not
ignored, hence counted in exactly one category. -/
theorem c6_label_partition_witness :
    (if isRecyclable "bottle" = true then 1 else 0)
      + (if isNotTrash "bottle" = true then 1 else 0)
      + (if isRecyclable "bottle" = false ∧ isNotTrash "bottle" = false then 1 else 0)
      = 1 :=
  c6_label_partition "bottle"

/-- Claim C8: `stopWebcam` is idempotent—the state after a second stop call
equals the state after the first, and no call throws (the embedding is a
total function); a stop on an attached stream leaves the loop not streaming
with the error count, detection list and recyclable flag cleared, while a
stop without an attached stream is a no-op. -/
theorem c8_stop_idempotent :
    (∀ s : ComponentState, stopWebcam (stopWebcam s) = stopWebcam s)
    ∧ (∀ s : ComponentState, s.hasStream = true →
        (stopWebcam s).hasStream = false
        ∧ (stopWebcam s).isStreaming = false
        ∧ (stopWebcam s).errorCount = 0
        ∧ (stopWebcam s).detectedObjects = []
        ∧ (stopWebcam s).recycleDetected = false
        ∧ (stopWebcam s).detectionStatus = "Webcam stopped")
    ∧ (∀ s : ComponentState, s.hasStream = false → stopWebcam s = s) := by
  refine ⟨?_, ?_, ?_⟩ <;> intro s <;> cases hs : s.hasStream <;>
    simp [stopWebcam, hs]

/-- Claim C8, witness: stopping twice from a concrete streaming state leaves
the cleared stopped state both times. -/
theorem c8_stop_idempotent_witness :
    stopWebcam (stopWebcam ⟨true, true, "Detecting", [], 4, true⟩)
      = stopWebcam ⟨true, true, "Detecting", [], 4, true⟩
    ∧ (stopWebcam ⟨true, true, "Detecting", [], 4, true⟩).isStreaming = false
    ∧ (stopWebcam ⟨true, true, "Detecting", [], 4, true⟩).errorCount = 0 :=
  ⟨c8_stop_idempotent.1 ⟨true, true, "Detecting", [], 4, true⟩,
   (c8_stop_idempotent.2.1 ⟨true, true, "Detecting", [], 4, true⟩ rfl).2.1,
   (c8_stop_idempotent.2.1 ⟨true, true, "Detecting", [], 4, true⟩ rfl).2.2.1⟩

/-- Claim C9, counterexample: the 5x5 pattern display performs no throttle
check—two back-to-back calls with zero elapsed time both write (and the
shared throttle timestamp is never consulted or updated)—while the
short-text display called with zero elapsed time skips.  So it is false that
both display operations are rate-limited to one update per ~100ms. -/
theorem c9_counterexample :
    (displayRecyclablePatternOnMicrobit ⟨true, true, 0, none, none, 0⟩ [] false true).2 = true
    ∧ (displayRecyclablePatternOnMicrobit
        (displayRecyclablePatternOnMicrobit ⟨true, true, 0, none, none, 0⟩ [] false true).1
        [] false true).2 = true
    ∧ (displayRecyclablePatternOnMicrobit
        ⟨true, true, 0, none, none, 0⟩ [] false true).1.lastMicrobitUpdate = 0
    ∧ (displayOnMicrobit ⟨true, true, 0, none, none, 0⟩ 0 "R" true).2 = false := by
  decide

/-- Claim C9, amended: the short-text display is rate-limited—when less than
100ms has elapsed since the last update it returns without writing and
without touching the state, and whenever it does write at least 100ms has
elapsed and the shared timestamp is advanced; the pattern display is not
rate-limited—while connected it attempts a write on every call; in both
operations a failing write is caught locally, incrementing only the logged
error count, and no failure propagates to the detection loop. -/
theorem c9_bridge_display :
    (∀ (s : BridgeState) (now : Nat) (text : String) (ok : Bool),
        now - s.lastMicrobitUpdate < microbitUpdateIntervalMs →
        displayOnMicrobit s now text ok = (s, false))
    ∧ (∀ (s : BridgeState) (now : Nat) (text : String) (ok : Bool),
        (displayOnMicrobit s now text ok).2 = true →
        microbitUpdateIntervalMs ≤ now - s.lastMicrobitUpdate
          ∧ (displayOnMicrobit s now text ok).1.lastMicrobitUpdate = now)
    ∧ (∀ (s : BridgeState) (now : Nat) (text : String),
        s.microbitConnected = true → s.hasLedService = true →
        microbitUpdateIntervalMs ≤ now - s.lastMicrobitUpdate →
        displayOnMicrobit s now text false =
          ({ s with lastMicrobitUpdate := now, loggedErrors := s.loggedErrors + 1 }, true))
    ∧ (∀ (s : BridgeState) (objs : List DetectedObject) (rec ok : Bool),
        s.microbitConnected = true → s.hasLedService = true →
        (displayRecyclablePatternOnMicrobit s objs rec ok).2 = true)
    ∧ (∀ (s : BridgeState) (objs : List DetectedObject) (rec : Bool),
        s.microbitConnected = true → s.hasLedService = true →
        displayRecyclablePatternOnMicrobit s objs rec false =
          ({ s with loggedErrors := s.loggedErrors + 1 }, true)) := by
  refine ⟨?_, ?_, ?_, ?_, ?_⟩
  · intro s now text ok h
    simp only [displayOnMicrobit]
    split <;> simp [h]
  · intro s now text ok h
    simp only [displayOnMicrobit] at h ⊢
    split at h
    · simp at h
    · split at h
      · simp at h
      · rename_i hcon hthr
        rw [if_neg hcon, if_neg hthr]
        refine ⟨by omega, ?_⟩
        split <;> rfl
  · intro s now text hc hl hth
    simp only [displayOnMicrobit, hc, hl]
    rw [if_neg (by simp), if_neg (by omega)]
    rfl
  · intro s objs rec ok hc hl
    simp only [displayRecyclablePatternOnMicrobit, hc, hl]
    rw [if_neg (by simp)]
    split <;> rfl
  · intro s objs rec hc hl
    simp only [displayRecyclablePatternOnMicrobit, hc, hl]
    rw [if_neg (by simp)]
    rfl

/-- Claim C9, amended, witness: concrete instances—at 10ms elapsed the text
display skips; while connected the pattern display writes and a failing
pattern write is only logged. -/
theorem c9_bridge_display_witness :
    displayOnMicrobit ⟨true, true, 50, none, none, 0⟩ 60 "R" true
      = (⟨true, true, 50, none, none, 0⟩, false)
    ∧ (displayRecyclablePatternOnMicrobit ⟨true, true, 0, none, none, 0⟩ [] true true).2 = true
    ∧ displayRecyclablePatternOnMicrobit ⟨true, true, 0, none, none, 3⟩ [] true false
        = (⟨true, true, 0, none, none, 4⟩, true) :=
  ⟨c9_bridge_display.1 ⟨true, true, 50, none, none, 0⟩ 60 "R" true (by decide),
   c9_bridge_display.2.2.2.1 ⟨true, true, 0, none, none, 0⟩ [] true true rfl rfl,
   c9_bridge_display.2.2.2.2 ⟨true, true, 0, none, none, 3⟩ [] true rfl rfl⟩

/-- A list is empty exactly when both its positive and negative filters are
empty. -/
theorem filter_pos_neg_nil {α : Type} (p : α → Bool) (l : List α) :
    (l.filter p = [] ∧ l.filter (fun a => !(p a)) = []) ↔ l = [] := by
  induction l with
  | nil => simp
  | cons a t ih =>
    cases h : p a <;> simp [List.filter_cons, h]

/-- Claim C4: the status reducer is a pure function of one detection snapshot
producing the status text and the any-recyclable flag; the flag is true
exactly when some detection is trash and recyclable; the status message
follows the source's first-match-wins priority: ignored-but-present objects
reported (alongside recyclable or non-recyclable items when present), else
recyclable items, else "No objects detected" exactly when the snapshot has
zero objects at all, else the non-recyclable count message; on
`[bottle 0.9]` the flag is true and the text contains "bottle", and on
`[person 0.95]` the flag is false and the text marks the person as
not trash. -/
theorem c4_status_reducer :
    (∀ dets : List DetectedObject,
        ((reduceDetections dets).anyRecyclablePresent = true ↔
          ∃ d ∈ dets, isNotTrash d.cls = false ∧ isRecyclable d.cls = true))
    ∧ (∀ dets : List DetectedObject,
        (notTrashOf dets = [] ∧ trashOf dets = []) ↔ dets = [])
    ∧ (∀ dets : List DetectedObject, notTrashOf dets ≠ [] → recyclableOf dets ≠ [] →
        (reduceDetections dets).statusText =
          "Detected: " ++ joinClasses (notTrashOf dets)
            ++ " (not trash) and recyclable items: " ++ joinClasses (recyclableOf dets))
    ∧ (∀ dets : List DetectedObject, notTrashOf dets ≠ [] → recyclableOf dets = [] →
        trashOf dets ≠ [] →
        (reduceDetections dets).statusText =
          "Detected: " ++ joinClasses (notTrashOf dets)
            ++ " (not trash) and non-recyclable items")
    ∧ (∀ dets : List DetectedObject, notTrashOf dets ≠ [] → trashOf dets = [] →
        (reduceDetections dets).statusText =
          "Detected: " ++ joinClasses (notTrashOf dets) ++ " (not trash)")
    ∧ (∀ dets : List DetectedObject, notTrashOf dets = [] → recyclableOf dets ≠ [] →
        (reduceDetections dets).statusText =
          "Recyclable items detected: " ++ joinClasses (recyclableOf dets) ++ "!")
    ∧ (∀ dets : List DetectedObject, dets = [] →
        (reduceDetections dets).statusText = "No objects detected")
    ∧ (∀ dets : List DetectedObject, notTrashOf dets = [] → recyclableOf dets = [] →
        trashOf dets ≠ [] →
        (reduceDetections dets).statusText =
          "No recyclable items found among " ++ toString (trashOf dets).length
            ++ " detected object(s)")
    ∧ (reduceDetections (processDetections
        [⟨"bottle", 9/10, 0, 0, 0, 0⟩])).anyRecyclablePresent = true
    ∧ (∃ pre post, (reduceDetections (processDetections
        [⟨"bottle", 9/10, 0, 0, 0, 0⟩])).statusText = pre ++ "bottle" ++ post)
    ∧ (reduceDetections (processDetections
        [⟨"person", 95/100, 0, 0, 0, 0⟩])).anyRecyclablePresent = false
    ∧ (∃ pre post, (reduceDetections (processDetections
        [⟨"person", 95/100, 0, 0, 0, 0⟩])).statusText = pre ++ "(not trash)" ++ post) := by
  refine ⟨?_, ?_, ?_, ?_, ?_, ?_, ?_, ?_, by decide,
    ⟨"Recyclable items detected: ", "!", by decide⟩, by decide,
    ⟨"Detected: person ", "", by decide⟩⟩
  · intro dets
    simp [reduceDetections, List.length_pos_iff_exists_mem, List.mem_filter,
      Bool.not_eq_true', and_assoc]
    constructor
    · rintro ⟨a, h1, h2, h3⟩; exact ⟨a, h1, h3, h2⟩
    · rintro ⟨a, h1, h2, h3⟩; exact ⟨a, h1, h3, h2⟩
  · intro dets
    exact filter_pos_neg_nil _ dets
  · intro dets hnt hrec
    simp only [notTrashOf, trashOf, recyclableOf] at hnt hrec ⊢
    simp only [reduceDetections, joinClasses]
    rw [if_pos (List.length_pos.mpr hnt), if_pos (List.length_pos.mpr hrec)]
  · intro dets hnt hrec htr
    simp only [notTrashOf, trashOf, recyclableOf] at hnt hrec htr ⊢
    simp only [reduceDetections, joinClasses]
    rw [if_pos (List.length_pos.mpr hnt), if_neg (by simp [hrec]),
      if_pos (List.length_pos.mpr htr)]
  · intro dets hnt htr
    simp only [notTrashOf, trashOf, recyclableOf] at hnt htr ⊢
    simp only [reduceDetections, joinClasses]
    rw [if_pos (List.length_pos.mpr hnt), if_neg (by simp [htr]),
      if_neg (by simp [htr])]
  · intro dets hnt hrec
    simp only [notTrashOf, trashOf, recyclableOf] at hnt hrec ⊢
    simp only [reduceDetections, joinClasses]
    rw [if_neg (by simp [hnt]), if_pos (List.length_pos.mpr hrec)]
  · intro dets h
    subst h
    decide
  · intro dets hnt hrec htr
    simp only [notTrashOf, trashOf, recyclableOf] at hnt hrec htr ⊢
    simp only [reduceDetections, joinClasses]
    rw [if_neg (by simp [hnt]), if_neg (by simp [hrec]),
      if_neg (by simp [List.length_eq_zero, htr])]

/-- Claim C4, witness: on a snapshot holding a person and a bottle the
reducer reports the person as not trash alongside the recyclable bottle. -/
theorem c4_status_reducer_witness :
    (reduceDetections [⟨"person", 95, 0, 0, 0, 0⟩, ⟨"bottle", 90, 0, 0, 0, 0⟩]).statusText
      = "Detected: "
        ++ joinClasses (notTrashOf [⟨"person", 95, 0, 0, 0, 0⟩, ⟨"bottle", 90, 0, 0, 0, 0⟩])
        ++ " (not trash) and recyclable items: "
        ++ joinClasses (recyclableOf [⟨"person", 95, 0, 0, 0, 0⟩, ⟨"bottle", 90, 0, 0, 0, 0⟩]) :=
  c4_status_reducer.2.2.1 [⟨"person", 95, 0, 0, 0, 0⟩, ⟨"bottle", 90, 0, 0, 0, 0⟩]
    (by decide) (by decide)

/-- Claim C10: every object the loop publishes as `detectedObjects` satisfies
not-`isNotTrash`—the success path publishes `trashItems`, the detection list
with every `NOT_TRASH_ITEMS` label (such as "person" or "dog") filtered
out—while such ignored objects still shape the status text. -/
theorem c10_published_only_trash :
    (∀ (dets : List DetectedObject), ∀ d ∈ (reduceDetections dets).published,
        isNotTrash d.cls = false)
    ∧ isNotTrash "person" = true
    ∧ isNotTrash "dog" = true
    ∧ (reduceDetections (processDetections [⟨"person", 95/100, 0, 0, 0, 0⟩])).published = []
    ∧ (reduceDetections (processDetections [⟨"person", 95/100, 0, 0, 0, 0⟩])).statusText
        = "Detected: person (not trash)" := by
  refine ⟨?_, by decide, by decide, by decide, by decide⟩
  intro dets d hd
  have hd' : d ∈ dets.filter (fun obj => !(isNotTrash obj.cls)) := hd
  have h2 := (List.mem_filter.mp hd').2
  simpa using h2

/-- Claim C10, witness: a published "bottle" object is not in the not-trash
set. -/
theorem c10_published_only_trash_witness :
    isNotTrash (DetectedObject.cls ⟨"bottle", 90, 0, 0, 0, 0⟩) = false :=
  c10_published_only_trash.1 [⟨"bottle", 90, 0, 0, 0, 0⟩] ⟨"bottle", 90, 0, 0, 0, 0⟩
    (List.Mem.head _)

/-- A tick that fires while `detectionRunning` holds only re-arms: it issues
no inference call and leaves the running and in-flight flags unchanged. -/
theorem detectTick_running (s : LoopState) (h : s.detectionRunning = true) :
    (detectTick s).calls = [] ∧ (detectTick s).state.detectionRunning = true
      ∧ (detectTick s).state.mainInFlight = s.mainInFlight
      ∧ (detectTick s).state.errorCount = s.errorCount := by
  unfold detectTick
  split
  · split
    · exact ⟨rfl, h, rfl, rfl⟩
    · exact ⟨rfl, h, rfl, rfl⟩
  · rename_i hcond
    rw [h] at hcond
    simp at hcond

/-- Claim C1, counterexample: from the ready streaming state, the trace
tick, successful resolution, tick reaches a state with two inference calls
in flight—the unguarded not-trash call that `drawDetections` launched during
publishing plus the next cycle's main call—so it is false that at most one
Detector inference call is in flight at every point. -/
theorem c1_counterexample :
    ¬ (∀ es : List LoopEvent, inFlightCalls (runEvents readyLoopState es).1 ≤ 1) := by
  intro h
  exact absurd (h [LoopEvent.tick, LoopEvent.resolveOk [], LoopEvent.tick]) (by decide)

/-- Claim C1, amended: the detection loop's own inference path is guarded:
while `detectionRunning` holds, any number of scheduling ticks issue no
inference call and leave the running and in-flight flags unchanged, so a
delayed main call stays the only main call until it resolves; the extra
unguarded not-trash call of `drawDetections` (see the counterexample) is the
only way two calls can overlap. -/
theorem c1_ticks_no_call_while_running (s : LoopState) (n : Nat)
    (h : s.detectionRunning = true) :
    (runEvents s (List.replicate n LoopEvent.tick)).2 = []
    ∧ (runEvents s (List.replicate n LoopEvent.tick)).1.detectionRunning = true
    ∧ (runEvents s (List.replicate n LoopEvent.tick)).1.mainInFlight = s.mainInFlight := by
  induction n generalizing s with
  | zero => exact ⟨rfl, h, rfl⟩
  | succ n ih =>
    rw [List.replicate_succ]
    simp only [runEvents, stepEvent]
    by_cases ha : 0 < s.armedTicks
    · rw [if_pos ha]
      have h' : ({ s with armedTicks := s.armedTicks - 1 } : LoopState).detectionRunning
          = true := h
      obtain ⟨hc, hr, hm, _⟩ := detectTick_running _ h'
      obtain ⟨ic, ir, im⟩ := ih _ hr
      refine ⟨?_, ir, ?_⟩
      · dsimp only
        rw [hc, ic]
        rfl
      · dsimp only
        rw [im, hm]
    · rw [if_neg ha]
      exact ih s h

/-- Claim C1, amended, witness: from a state with the main call in flight
and one armed tick, ten ticks issue zero further inference calls and leave
the call in flight. -/
theorem c1_ticks_no_call_witness :
    (runEvents inFlightLoopState (List.replicate 10 LoopEvent.tick)).2 = []
    ∧ (runEvents inFlightLoopState
        (List.replicate 10 LoopEvent.tick)).1.detectionRunning = true
    ∧ (runEvents inFlightLoopState (List.replicate 10 LoopEvent.tick)).1.mainInFlight
        = inFlightLoopState.mainInFlight :=
  c1_ticks_no_call_while_running inFlightLoopState 10 rfl

/-- From a quiescent state—no armed tick and no main call in flight—no event
can issue an inference call or change the error count: only pending draw
resolutions can still fire, and they are inert. -/
theorem runEvents_quiescent (s : LoopState) (es : List LoopEvent)
    (ha : s.armedTicks = 0) (hm : s.mainInFlight = false) :
    (runEvents s es).2 = [] ∧ (runEvents s es).1.errorCount = s.errorCount
    ∧ (runEvents s es).1.armedTicks = 0 ∧ (runEvents s es).1.mainInFlight = false := by
  induction es generalizing s with
  | nil => exact ⟨rfl, rfl, ha, hm⟩
  | cons e rest ih =>
    cases e with
    | tick =>
      simp only [runEvents, stepEvent]
      rw [if_neg (by omega)]
      exact ih s ha hm
    | resolveOk preds =>
      simp only [runEvents, stepEvent]
      rw [if_neg (by simp [hm])]
      exact ih s ha hm
    | resolveErr =>
      simp only [runEvents, stepEvent]
      rw [if_neg (by simp [hm])]
      exact ih s ha hm
    | drawDone =>
      simp only [runEvents, stepEvent]
      by_cases hd : 0 < s.drawInFlight
      · rw [if_pos hd]
        exact ih { s with drawInFlight := s.drawInFlight - 1 } ha hm
      · rw [if_neg hd]
        exact ih s ha hm

/-- Claim C3, counterexample: on an inference failure with prior error count
1 (below 3) the next tick is scheduled behind a 500ms `setTimeout`, not
immediately; and with prior error count 3 (between 3 and 5) the status is
the terminal "Detection error occurred", not the retrying message.  So the
claimed below-3-immediate / 3-to-5-same-status policy is false. -/
theorem c3_counterexample :
    (¬ (∀ s : LoopState, s.isStreaming = true → s.errorCount < 3 →
        (detectResolveErr s).rearmDelayMs = some 0))
    ∧ (¬ (∀ s : LoopState, s.isStreaming = true → 3 ≤ s.errorCount → s.errorCount < 5 →
        (detectResolveErr s).state.detectionStatus = "Detection error, retrying...")) := by
  constructor
  · intro h
    exact absurd (h { readyLoopState with errorCount := 1 } (by decide) (by decide))
      (by decide)
  · intro h
    exact absurd
      (h { readyLoopState with errorCount := 3 } (by decide) (by decide) (by decide))
      (by decide)

/-- Claim C3, amended: on an inference failure with prior consecutive error
count c, the count becomes c+1 and the status reports retrying exactly while
c is less than 3 (and "Detection error occurred" from c = 3 on); while c is
less than 5 the next tick is scheduled behind an artificial delay of c times
500ms (immediate only for c = 0); once c reaches 5 nothing is re-armed, and
from the resulting quiescent state no further inference call or error-count
change can ever occur, so the terminal policy triggers exactly once. -/
theorem c3_error_backoff :
    (∀ s : LoopState, s.isStreaming = true →
        (detectResolveErr s).state.errorCount = s.errorCount + 1
        ∧ (detectResolveErr s).state.detectionStatus =
            (if s.errorCount < 3 then "Detection error, retrying..."
             else "Detection error occurred")
        ∧ (s.errorCount < 5 → (detectResolveErr s).rearmDelayMs = some (s.errorCount * 500))
        ∧ (5 ≤ s.errorCount → (detectResolveErr s).rearmDelayMs = none))
    ∧ (∀ s : LoopState, 5 ≤ s.errorCount → s.armedTicks = 0 → s.mainInFlight = false →
        ∀ es : List LoopEvent,
          (runEvents (detectResolveErr s).state es).2 = []
          ∧ (runEvents (detectResolveErr s).state es).1.errorCount = s.errorCount + 1) := by
  constructor
  · intro s hstr
    unfold detectResolveErr
    by_cases h5 : s.errorCount < 5
    · rw [if_pos (by simp [h5, hstr])]
      exact ⟨rfl, rfl, fun _ => rfl, fun hge => absurd h5 (by omega)⟩
    · rw [if_neg (by simp [h5])]
      exact ⟨rfl, rfl, fun hlt => absurd hlt h5, fun _ => rfl⟩
  · intro s h5 ha hm es
    have hne : (detectResolveErr s).state.armedTicks = 0
        ∧ (detectResolveErr s).state.mainInFlight = false
        ∧ (detectResolveErr s).state.errorCount = s.errorCount + 1 := by
      unfold detectResolveErr
      rw [if_neg (by simp [show ¬ s.errorCount < 5 by omega])]
      exact ⟨ha, rfl, rfl⟩
    obtain ⟨h1, h2, h3⟩ := hne
    obtain ⟨q1, q2, _, _⟩ := runEvents_quiescent _ es h1 h2
    exact ⟨q1, by rw [q2, h3]⟩

/-- Claim C3, amended, witness: from a streaming state with prior error count
4, a failure re-arms behind a 2000ms delay; with prior error count 5 and no
pending tick, the terminal failure leaves a state from which a tick and a
resolution produce no call and no error-count change. -/
theorem c3_error_backoff_witness :
    ((detectResolveErr erroredLoopState4).state.errorCount = 5
      ∧ (detectResolveErr erroredLoopState4).rearmDelayMs = some 2000)
    ∧ ((runEvents (detectResolveErr erroredLoopState5).state
          [LoopEvent.tick, LoopEvent.resolveErr]).2 = []
      ∧ (runEvents (detectResolveErr erroredLoopState5).state
          [LoopEvent.tick, LoopEvent.resolveErr]).1.errorCount = 6) :=
  ⟨⟨(c3_error_backoff.1 erroredLoopState4 (by decide)).1,
    (c3_error_backoff.1 erroredLoopState4 (by decide)).2.2.1 (by decide)⟩,
   c3_error_backoff.2 erroredLoopState5 (by decide) (by decide) (by decide)
     [LoopEvent.tick, LoopEvent.resolveErr]⟩

/-- Any enabled loop event issues either no inference call or exactly the
call `detect(video, undefined, 0.5)`. -/
theorem stepEvent_calls_shape (s : LoopState) (e : LoopEvent) (out : StepOutput)
    (h : stepEvent s e = some out) :
    out.calls = [] ∨ out.calls = [⟨none, 1/2⟩] := by
  cases e <;> simp only [stepEvent] at h
  · split at h
    · cases h
      unfold detectTick
      split
      · split
        · exact Or.inl rfl
        · exact Or.inl rfl
      · split
        · exact Or.inl rfl
        · exact Or.inr rfl
    · cases h
  · split at h
    · cases h
      simp only [detectResolveOk]
      split <;> split <;> simp
    · cases h
  · split at h
    · cases h
      simp only [detectResolveErr]
      split <;> exact Or.inl rfl
    · cases h
  · split at h
    · cases h
      exact Or.inl rfl
    · cases h

/-- Claim C7: every inference call issued anywhere in an execution of the
main-revision loop machine carries the fixed minimum-confidence threshold
0.5 and leaves the result cap unspecified (`undefined`, the detector's own
default bound), and every call issued by the throttled part_003 revision
carries the threshold 0.5 and requests at most the top 5 detections. -/
theorem c7_detector_call_params :
    (∀ (s : LoopState) (es : List LoopEvent),
        ∀ c ∈ (runEvents s es).2, c.minScore = 1/2 ∧ c.maxResults = none)
    ∧ (∀ (s : ThrottledState) (now : Nat),
        ∀ c ∈ (throttledDetectTick s now).2,
          c.minScore = 1/2 ∧ c.maxResults = some 5) := by
  constructor
  · intro s es
    induction es generalizing s with
    | nil =>
      intro c hc
      simp [runEvents] at hc
    | cons e rest ih =>
      intro c hc
      simp only [runEvents] at hc
      cases hstep : stepEvent s e with
      | none =>
        rw [hstep] at hc
        exact ih s c hc
      | some out =>
        rw [hstep] at hc
        dsimp only at hc
        rw [List.mem_append] at hc
        cases hc with
        | inl hmem =>
          rcases stepEvent_calls_shape s e out hstep with hO | hO <;> rw [hO] at hmem
          · simp at hmem
          · rw [List.mem_singleton] at hmem
            subst hmem
            exact ⟨rfl, rfl⟩
        | inr hmem => exact ih out.state c hmem
  · intro s now c hc
    simp only [throttledDetectTick] at hc
    split at hc
    · simp at hc
    · split at hc
      · simp at hc
      · split at hc
        · simp at hc
        · rw [List.mem_singleton] at hc
          subst hc
          exact ⟨rfl, rfl⟩

/-- Claim C7, witness: the call issued by the first tick from the ready
state has threshold 0.5 and no explicit cap; the call issued by a throttled
tick at time 1200 has threshold 0.5 and cap 5. -/
theorem c7_detector_call_params_witness :
    ((⟨none, 1/2⟩ : CallParams).minScore = 1/2
      ∧ (⟨none, 1/2⟩ : CallParams).maxResults = none)
    ∧ ((⟨some 5, 1/2⟩ : CallParams).minScore = 1/2
      ∧ (⟨some 5, 1/2⟩ : CallParams).maxResults = some 5) :=
  ⟨c7_detector_call_params.1 readyLoopState [LoopEvent.tick] ⟨none, 1/2⟩
      (List.Mem.head _),
   c7_detector_call_params.2 throttledReadyState 1200 ⟨some 5, 1/2⟩
      (List.Mem.head _)⟩

/-- Case analysis of a throttled tick: either it is a no-op re-arm (guard or
throttle), or at least the target interval has elapsed and it updates the
last-detection timestamp, issuing the detect call exactly in the ready
case. -/
theorem throttledDetectTick_cases (s : ThrottledState) (now : Nat) :
    throttledDetectTick s now = (s, [])
    ∨ (throttledDetectTick s now = ({ s with lastDetectionTime := now }, [])
        ∧ s.detectionIntervalMs ≤ now - s.lastDetectionTime)
    ∨ (throttledDetectTick s now
          = ({ s with lastDetectionTime := now, detectionRunning := true },
             [⟨some 5, 1/2⟩])
        ∧ s.detectionIntervalMs ≤ now - s.lastDetectionTime) := by
  simp only [throttledDetectTick]
  split
  · exact Or.inl rfl
  · split
    · exact Or.inl rfl
    · rename_i hthr
      have hge : s.detectionIntervalMs ≤ now - s.lastDetectionTime := by omega
      split
      · exact Or.inr (Or.inl ⟨rfl, hge⟩)
      · exact Or.inr (Or.inr ⟨rfl, hge⟩)

/-- In any run of the throttled machine with a positive target interval, the
times of the call-issuing ticks are spaced at least one interval apart, and
every issued call comes at least one interval after the starting
last-detection timestamp. -/
theorem runThrottled_spacing (I : Nat) (hI : 0 < I) (es : List ThrottledEvent) :
    ∀ s : ThrottledState, s.detectionIntervalMs = I →
      List.Chain' (fun a b => a + I ≤ b) (runThrottled s es).2
      ∧ (∀ t ∈ (runThrottled s es).2, s.lastDetectionTime + I ≤ t) := by
  induction es with
  | nil =>
    intro s hsI
    exact ⟨List.chain'_nil, by simp [runThrottled]⟩
  | cons e rest ih =>
    intro s hsI
    cases e with
    | resolveOk =>
      simp only [runThrottled, throttledStep]
      simpa using ih { s with detectionRunning := false } hsI
    | resolveErr =>
      simp only [runThrottled, throttledStep]
      simpa using ih { s with detectionRunning := false } hsI
    | tick now =>
      rcases throttledDetectTick_cases s now with hc | ⟨hc, hge⟩ | ⟨hc, hge⟩
      · simp only [runThrottled, throttledStep, hc]
        simpa using ih s hsI
      · simp only [runThrottled, throttledStep, hc]
        obtain ⟨hch, hall⟩ := ih { s with lastDetectionTime := now } hsI
        refine ⟨by simpa using hch, ?_⟩
        intro t ht
        simp only [List.isEmpty_nil, if_true, List.nil_append] at ht
        have h2 : now + I ≤ t := hall t ht
        omega
      · simp only [runThrottled, throttledStep, hc]
        obtain ⟨hch, hall⟩ :=
          ih { s with lastDetectionTime := now, detectionRunning := true } hsI
        have hall' : ∀ t ∈ (runThrottled
            { s with lastDetectionTime := now, detectionRunning := true } rest).2,
            now + I ≤ t := fun t ht => hall t ht
        rw [show (List.isEmpty [(⟨some 5, 1/2⟩ : CallParams)]) = false from rfl]
        rw [if_neg (by simp), List.singleton_append]
        constructor
        · rw [List.chain'_cons']
          exact ⟨fun y hy => hall' y (List.mem_of_mem_head? hy), hch⟩
        · intro t ht
          rcases List.mem_cons.mp ht with rfl | ht'
          · omega
          · have h2 := hall' t ht'
            omega

/-- Claim C2: in the throttled part_003 revision of `detectObjects`, a tick
that fires with the prerequisites met but with less than the target interval
elapsed since the last detection is a pure re-arm—the state is unchanged and
no Detector call is issued; whenever a tick does issue a call, at least the
target interval has elapsed and the timestamp is advanced to the tick's
time; consequently in any execution the call-issuing ticks are spaced at
least one target interval apart, bounding the inference rate independently
of the display refresh rate. -/
theorem c2_throttle_bound :
    (∀ (s : ThrottledState) (now : Nat),
        s.detectionRunning = false → s.isStreaming = true → s.hasVideo = true →
        s.hasModel = true → now - s.lastDetectionTime < s.detectionIntervalMs →
        throttledDetectTick s now = (s, []))
    ∧ (∀ (s : ThrottledState) (now : Nat),
        (throttledDetectTick s now).2 ≠ [] →
        s.detectionIntervalMs ≤ now - s.lastDetectionTime
          ∧ (throttledDetectTick s now).1.lastDetectionTime = now)
    ∧ (∀ (s : ThrottledState) (es : List ThrottledEvent),
        0 < s.detectionIntervalMs →
        List.Chain' (fun a b => a + s.detectionIntervalMs ≤ b) (runThrottled s es).2) := by
  refine ⟨?_, ?_, ?_⟩
  · intro s now h1 h2 h3 h4 h5
    unfold throttledDetectTick
    rw [if_neg (by simp [h1, h2, h3, h4]), if_pos h5]
  · intro s now h
    rcases throttledDetectTick_cases s now with hc | ⟨hc, hge⟩ | ⟨hc, hge⟩
    · rw [hc] at h
      simp at h
    · exact ⟨hge, by rw [hc]⟩
    · exact ⟨hge, by rw [hc]⟩
  · intro s es hI
    exact (runThrottled_spacing s.detectionIntervalMs hI es s rfl).1

/-- Claim C2, witness: a tick 100ms after the last detection with a 150ms
interval is a pure re-arm, and a concrete run issues calls spaced at least
150ms apart. -/
theorem c2_throttle_bound_witness :
    throttledDetectTick throttledReadyState 1100 = (throttledReadyState, [])
    ∧ List.Chain' (fun a b => a + 150 ≤ b)
        (runThrottled throttledReadyState
          [ThrottledEvent.tick 1150, ThrottledEvent.resolveOk,
           ThrottledEvent.tick 1200, ThrottledEvent.tick 1300,
           ThrottledEvent.resolveOk]).2 :=
  ⟨c2_throttle_bound.1 throttledReadyState 1100 rfl rfl rfl rfl (by decide),
   c2_throttle_bound.2.2 throttledReadyState
     [ThrottledEvent.tick 1150, ThrottledEvent.resolveOk,
      ThrottledEvent.tick 1200, ThrottledEvent.tick 1300,
      ThrottledEvent.resolveOk] (by decide)⟩

end LIFT
